import Mathlib

/-!
Verification of the trip-planner backend (`backend/trip_planner_agent.py`,
`backend/main.py`) against its specification.

Modelling conventions:
* Python floats are modelled as exact rationals (`ℚ`); Python ints as `Int`.
* Fallible Python expressions (division that can raise `ZeroDivisionError`)
  return `Except String _`.
* The external Completion Service (`ChatOpenAI.invoke`) is an opaque function
  parameter of type `List Message → Message`.
* Python dictionaries that only ever hold string keys/values are modelled as
  association lists; the empty dict `{}` is the empty list.
-/

/-- Python float division: `a / b` raises `ZeroDivisionError` when `b = 0`,
otherwise yields the quotient. -/
def pydiv (a b : ℚ) : Except String ℚ :=
  if b = 0 then Except.error "ZeroDivisionError: float division by zero"
  else Except.ok (a / b)

/-- Python `str.lower()` on ASCII text: lowercase every character. -/
def pyLower (s : String) : String :=
  String.mk (s.data.map Char.toLower)

/-- Python `range(lo, hi)` as a list of integers, empty when `hi ≤ lo`. -/
def pyrange (lo hi : Int) : List Int :=
  (List.range (hi - lo).toNat).map (fun i : Nat => lo + (i : Int))

/-- Run a fallible step for each element in order, collecting the results and
stopping at the first error; models a Python `for` loop that appends to an
accumulator and may raise inside the body. -/
def mapME {α β : Type} (f : α → Except String β) : List α → Except String (List β)
  | [] => Except.ok []
  | a :: l =>
    match f a with
    | Except.error e => Except.error e
    | Except.ok b =>
      match mapME f l with
      | Except.error e => Except.error e
      | Except.ok bs => Except.ok (b :: bs)

/-- One record of the static destination knowledge table in
`research_destination`. -/
structure DestInfo where
  weather : String
  culture : String
  attractions : List String
  currency : String
  language : String
  deriving DecidableEq

/-- The `"paris"` record of the static table. -/
def parisData : DestInfo :=
  { weather := "Mild climate, best visited in spring or fall"
    culture := "Rich history, art, and cuisine"
    attractions := ["Eiffel Tower", "Louvre Museum", "Notre-Dame", "Champs-Élysées"]
    currency := "Euro"
    language := "French" }

/-- The `"tokyo"` record of the static table. -/
def tokyoData : DestInfo :=
  { weather := "Four distinct seasons, cherry blossoms in spring"
    culture := "Traditional and modern blend, excellent food scene"
    attractions := ["Tokyo Skytree", "Senso-ji Temple", "Shibuya Crossing", "Tsukiji Market"]
    currency := "Japanese Yen"
    language := "Japanese" }

/-- The `"new york"` record of the static table. -/
def newYorkData : DestInfo :=
  { weather := "Four seasons, can be cold in winter"
    culture := "Diverse, fast-paced, cultural hub"
    attractions := ["Statue of Liberty", "Central Park", "Times Square", "Broadway"]
    currency := "US Dollar"
    language := "English" }

/-- The 3-entry static table `research_data`, keyed by lowercase name. -/
def research_data (key : String) : Option DestInfo :=
  if key = "paris" then some parisData
  else if key = "tokyo" then some tokyoData
  else if key = "new york" then some newYorkData
  else none

/-- Text rendering of a destination record.  The source serializes the record
with `json.dumps(..., indent=2)`; the exact rendering is irrelevant to the
properties below, which only need that equal records render equally. -/
def destInfoText (d : DestInfo) : String :=
  "weather: " ++ d.weather ++ "; culture: " ++ d.culture ++
    "; attractions: " ++ String.intercalate ", " d.attractions ++
    "; currency: " ++ d.currency ++ "; language: " ++ d.language

/-- Tool `research_destination`: case-insensitive lookup in the static table,
with a fixed not-found message naming the queried destination.  Total: no
input raises. -/
def research_destination (destination : String) : String :=
  match research_data (pyLower destination) with
  | some info => destInfoText info
  | none => s!"Research data for {destination} not available. Please provide more details about your destination."

/-- The breakdown record produced by `calculate_budget_breakdown`. -/
structure BudgetBreakdown where
  accommodation : ℚ
  food : ℚ
  activities : ℚ
  transportation : ℚ
  daily_budget : ℚ
  total_budget : ℚ
  deriving DecidableEq

/-- Tool `calculate_budget_breakdown`: fixed-fraction split of the budget plus
`daily_budget = budget / duration`; the division is unguarded, so
`duration = 0` raises `ZeroDivisionError`.  `destination` is unused. -/
def calculate_budget_breakdown (budget : ℚ) (duration : Int) (destination : String) :
    Except String BudgetBreakdown :=
  let accommodation_percent : ℚ := 0.4
  let food_percent : ℚ := 0.3
  let activities_percent : ℚ := 0.2
  let transportation_percent : ℚ := 0.1
  match pydiv budget (duration : ℚ) with
  | Except.error e => Except.error e
  | Except.ok daily =>
    Except.ok
      { accommodation := budget * accommodation_percent
        food := budget * food_percent
        activities := budget * activities_percent
        transportation := budget * transportation_percent
        daily_budget := daily
        total_budget := budget }

/-- One day entry produced by `generate_itinerary`. -/
structure DayPlan where
  day : Int
  morning : String
  afternoon : String
  evening : String
  estimated_cost : ℚ
  deriving DecidableEq

/-- Tool `generate_itinerary`: one templated entry per day in
`range(1, duration + 1)`; the per-day cost divides by `duration` inside the
loop body, so the division is evaluated only when the loop runs. -/
def generate_itinerary (destination : String) (duration : Int) (interests : List String)
    (budget : ℚ) : Except String (List DayPlan) :=
  mapME
    (fun day =>
      match pydiv budget (duration : ℚ) with
      | Except.error e => Except.error e
      | Except.ok daily =>
        let afternoonActivity := interests.headD "local culture"
        Except.ok
          { day := day
            morning := "Explore " ++ destination ++ " - Visit local attractions"
            afternoon := "Enjoy " ++ afternoonActivity
            evening := "Dinner at local restaurant"
            estimated_cost := daily * 0.3 })
    (pyrange 1 (duration + 1))

/-- One option returned by `find_accommodations`. -/
structure Accommodation where
  name : String
  price : ℚ
  rating : ℚ
  deriving DecidableEq

/-- The static `accommodations` table of `find_accommodations`, keyed by tier
name; prices are fixed fractions of the budget. -/
def accommodations (budget : ℚ) (category : String) : List Accommodation :=
  if category = "budget" then
    [{ name := "Budget Hostel", price := budget * 0.2, rating := 3.5 },
     { name := "Guesthouse", price := budget * 0.25, rating := 4.0 }]
  else if category = "mid_range" then
    [{ name := "3-Star Hotel", price := budget * 0.3, rating := 4.2 },
     { name := "Boutique Hotel", price := budget * 0.35, rating := 4.5 }]
  else if category = "luxury" then
    [{ name := "5-Star Hotel", price := budget * 0.5, rating := 4.8 },
     { name := "Luxury Resort", price := budget * 0.6, rating := 4.9 }]
  else []

/-- Tool `find_accommodations`: select the tier by the budget thresholds
`< 1000` and `< 3000`, then return that tier's two static options.
`accommodation_type` is threaded through but unused. -/
def find_accommodations (destination : String) (budget : ℚ) (accommodation_type : String) :
    List Accommodation :=
  let category := if budget < 1000 then "budget" else if budget < 3000 then "mid_range" else "luxury"
  accommodations budget category

theorem mapME_ok {α β : Type} (f : α → Except String β) (g : α → β) :
    ∀ l : List α, (∀ a ∈ l, f a = Except.ok (g a)) → mapME f l = Except.ok (l.map g) := by
  intro l
  induction l with
  | nil => intro _; rfl
  | cons a l ih =>
    intro h
    have ha := h a (List.mem_cons_self a l)
    have hl := ih (fun x hx => h x (List.mem_cons_of_mem a hx))
    simp [mapME, ha, hl]

theorem pyrange_length (lo hi : Int) : (pyrange lo hi).length = (hi - lo).toNat := by
  unfold pyrange
  rw [List.length_map, List.length_range]

theorem pyrange_getElem (lo hi : Int) (i : Nat) (h : i < (pyrange lo hi).length) :
    (pyrange lo hi)[i] = lo + i := by
  unfold pyrange at h ⊢
  rw [List.getElem_map, List.getElem_range]

/-- C3: for budget `b ≥ 0`, duration `d ≥ 1` and any destination, the budget
breakdown is the 0.4/0.3/0.2/0.1 split together with `daily_budget = b / d`
and the echoed total; the four fractions sum to `b`; and duration `0` raises a
division error. -/
theorem calculate_budget_breakdown_correct (b : ℚ) (d : Int) (dest : String)
    (hb : 0 ≤ b) (hd : 1 ≤ d) :
    calculate_budget_breakdown b d dest =
      Except.ok
        { accommodation := b * 0.4, food := b * 0.3, activities := b * 0.2,
          transportation := b * 0.1, daily_budget := b / (d : ℚ), total_budget := b } ∧
    b * 0.4 + b * 0.3 + b * 0.2 + b * 0.1 = b ∧
    calculate_budget_breakdown b 0 dest =
      Except.error "ZeroDivisionError: float division by zero" := by
  have hdne : ((d : ℚ)) ≠ 0 := by
    have : d ≠ 0 := by omega
    exact_mod_cast this
  refine ⟨?_, by ring, ?_⟩
  · simp [calculate_budget_breakdown, pydiv, hdne]
  · simp [calculate_budget_breakdown, pydiv]

theorem calculate_budget_breakdown_correct_witness :
    calculate_budget_breakdown 1000 4 "Paris" =
      Except.ok
        { accommodation := 1000 * 0.4, food := 1000 * 0.3, activities := 1000 * 0.2,
          transportation := 1000 * 0.1, daily_budget := 1000 / ((4 : Int) : ℚ),
          total_budget := 1000 } ∧
    (1000 : ℚ) * 0.4 + 1000 * 0.3 + 1000 * 0.2 + 1000 * 0.1 = 1000 ∧
    calculate_budget_breakdown 1000 0 "Paris" =
      Except.error "ZeroDivisionError: float division by zero" :=
  calculate_budget_breakdown_correct 1000 4 "Paris" (by decide) (by decide)

/-- C4: the accommodation finder selects the budget tier for `b < 1000`, the
mid-range tier for `1000 ≤ b < 3000`, and the luxury tier for `b ≥ 3000`,
returning exactly the two static options of the tier priced as fixed fractions
of `b`; the literal boundary budgets behave as stated. -/
theorem find_accommodations_tiers (dest : String) (b : ℚ) (atype : String) :
    find_accommodations dest b atype =
      (if b < 1000 then
        [{ name := "Budget Hostel", price := b * 0.2, rating := 3.5 },
         { name := "Guesthouse", price := b * 0.25, rating := 4.0 }]
      else if b < 3000 then
        [{ name := "3-Star Hotel", price := b * 0.3, rating := 4.2 },
         { name := "Boutique Hotel", price := b * 0.35, rating := 4.5 }]
      else
        [{ name := "5-Star Hotel", price := b * 0.5, rating := 4.8 },
         { name := "Luxury Resort", price := b * 0.6, rating := 4.9 }]) ∧
    (find_accommodations dest (999.99 : ℚ) atype).map Accommodation.name =
      ["Budget Hostel", "Guesthouse"] ∧
    (find_accommodations dest (1000 : ℚ) atype).map Accommodation.name =
      ["3-Star Hotel", "Boutique Hotel"] ∧
    (find_accommodations dest (2999.99 : ℚ) atype).map Accommodation.name =
      ["3-Star Hotel", "Boutique Hotel"] ∧
    (find_accommodations dest (3000 : ℚ) atype).map Accommodation.name =
      ["5-Star Hotel", "Luxury Resort"] := by
  refine ⟨?_, ?_, ?_, ?_, ?_⟩
  · unfold find_accommodations accommodations
    split_ifs <;> simp
  · have h1 : (999.99 : ℚ) < 1000 := by norm_num
    simp [find_accommodations, accommodations, h1]
  · have h1 : ¬ ((1000 : ℚ) < 1000) := by norm_num
    have h2 : (1000 : ℚ) < 3000 := by norm_num
    simp [find_accommodations, accommodations, h1, h2]
  · have h1 : ¬ ((2999.99 : ℚ) < 1000) := by norm_num
    have h2 : (2999.99 : ℚ) < 3000 := by norm_num
    simp [find_accommodations, accommodations, h1, h2]
  · have h1 : ¬ ((3000 : ℚ) < 1000) := by norm_num
    have h2 : ¬ ((3000 : ℚ) < 3000) := by norm_num
    simp [find_accommodations, accommodations, h1, h2]

/-- C5: for duration `d ≥ 1` the itinerary has exactly `d` entries, day
numbers `1..d` in order with no gaps, templated text slots (the afternoon slot
uses the first interest or the fallback phrase), and per-day cost
`(b / d) * 0.3`. -/
theorem generate_itinerary_correct (dest : String) (d : Int) (interests : List String)
    (b : ℚ) (hd : 1 ≤ d) :
    ∃ l, generate_itinerary dest d interests b = Except.ok l ∧
      l.length = d.toNat ∧
      ∀ i : Nat, ∀ h : i < l.length,
        l[i].day = (i : Int) + 1 ∧
        l[i].morning = "Explore " ++ dest ++ " - Visit local attractions" ∧
        l[i].afternoon = "Enjoy " ++ interests.headD "local culture" ∧
        l[i].evening = "Dinner at local restaurant" ∧
        l[i].estimated_cost = b / (d : ℚ) * 0.3 := by
  have hdne : ((d : ℚ)) ≠ 0 := by
    have : d ≠ 0 := by omega
    exact_mod_cast this
  have hdiv : pydiv b (d : ℚ) = Except.ok (b / (d : ℚ)) := by simp [pydiv, hdne]
  refine ⟨(pyrange 1 (d + 1)).map
    (fun day =>
      { day := day
        morning := "Explore " ++ dest ++ " - Visit local attractions"
        afternoon := "Enjoy " ++ interests.headD "local culture"
        evening := "Dinner at local restaurant"
        estimated_cost := b / (d : ℚ) * 0.3 }), ?_, ?_, ?_⟩
  · unfold generate_itinerary
    refine mapME_ok _ _ _ (fun a _ => ?_)
    simp only [hdiv]
  · rw [List.length_map, pyrange_length]
    omega
  · intro i h
    have hlen : i < (pyrange 1 (d + 1)).length := by
      rw [List.length_map] at h
      exact h
    refine ⟨?_, ?_, ?_, ?_, ?_⟩ <;> rw [List.getElem_map]
    show (pyrange 1 (d + 1))[i] = (i : Int) + 1
    rw [pyrange_getElem]
    omega

theorem generate_itinerary_correct_witness :
    ∃ l, generate_itinerary "Paris" 2 ["art"] 100 = Except.ok l ∧
      l.length = (2 : Int).toNat ∧
      ∀ i : Nat, ∀ h : i < l.length,
        l[i].day = (i : Int) + 1 ∧
        l[i].morning = "Explore " ++ "Paris" ++ " - Visit local attractions" ∧
        l[i].afternoon = "Enjoy " ++ (["art"] : List String).headD "local culture" ∧
        l[i].evening = "Dinner at local restaurant" ∧
        l[i].estimated_cost = 100 / ((2 : Int) : ℚ) * 0.3 :=
  generate_itinerary_correct "Paris" 2 ["art"] 100 (by decide)

/-- C10: for duration `d ≤ 0` the per-day loop runs zero times, so the
itinerary is empty and no division error is raised. -/
theorem generate_itinerary_nonpositive (dest : String) (d : Int) (interests : List String)
    (b : ℚ) (hd : d ≤ 0) :
    generate_itinerary dest d interests b = Except.ok [] := by
  have h0 : (d + 1 - 1).toNat = 0 := by omega
  have hempty : pyrange 1 (d + 1) = [] := by
    unfold pyrange
    rw [h0]
    rfl
  unfold generate_itinerary
  rw [hempty]
  rfl

theorem generate_itinerary_nonpositive_witness :
    ((0 : Int) ≤ 0) ∧ generate_itinerary "Atlantis" 0 [] 500 = Except.ok [] :=
  ⟨by decide, generate_itinerary_nonpositive "Atlantis" 0 [] 500 (by decide)⟩

/-- C6: the destination lookup is invariant under case (it keys on the
lowercased name), the three casings of Paris return the identical record text,
an unknown destination yields the fixed not-found message naming it, and the
function is total, so it never raises. -/
theorem research_destination_case_insensitive :
    (∀ d1 d2 : String, pyLower d1 = pyLower d2 →
      ∀ info, research_data (pyLower d1) = some info →
        research_destination d1 = research_destination d2) ∧
    (∀ dst : String, research_data (pyLower dst) = none →
      research_destination dst =
        s!"Research data for {dst} not available. Please provide more details about your destination.") ∧
    research_destination "Paris" = research_destination "PARIS" ∧
    research_destination "PARIS" = research_destination "paris" ∧
    research_destination "paris" = destInfoText parisData ∧
    research_destination "Atlantis" =
      "Research data for Atlantis not available. Please provide more details about your destination." := by
  refine ⟨?_, ?_, rfl, rfl, rfl, rfl⟩
  · intro d1 d2 h info hinfo
    unfold research_destination
    rw [h] at hinfo ⊢
    rw [hinfo]
  · intro dst hnone
    unfold research_destination
    rw [hnone]

theorem research_destination_case_insensitive_witness :
    pyLower "PARIS" = pyLower "pArIs" ∧
    research_data (pyLower "PARIS") = some parisData ∧
    research_destination "PARIS" = research_destination "pArIs" :=
  ⟨by decide, rfl,
    research_destination_case_insensitive.1 "PARIS" "pArIs" (by decide) parisData rfl⟩

/-- Role tag of a conversation message (`SystemMessage`, `HumanMessage`,
`AIMessage`). -/
inductive Role
  | system
  | human
  | ai
  deriving DecidableEq

/-- One role-tagged message of the pipeline's conversation history. -/
structure Message where
  role : Role
  content : String
  deriving DecidableEq

/-- The external Completion Service (`get_llm().invoke`): an ordered list of
role-tagged messages in, one completion message out.  Opaque to the pipeline;
each stage function takes it as a parameter. -/
def LLM : Type := List Message → Message

/-- The `final_plan` record written by the coordinator stage. -/
structure FinalPlan where
  summary : String
  deriving DecidableEq

/-- `TripPlanningState`: the state threaded through the graph.  `messages`
carries the `add_messages`-reduced history.  `itinerary`, `recommendations`
and `final_plan` are `Option`s because no key is present until some stage
writes it.  The `travel_dates`, `accommodation_preferences` and
`transportation_preferences` keys of the TypedDict are never read or written
by any stage or by `plan_trip`, so they are omitted from the embedding. -/
structure PipelineState where
  messages : List Message
  destination : String
  duration : Int
  budget : ℚ
  interests : List String
  itinerary : Option (List DayPlan)
  recommendations : Option (List String)
  final_plan : Option FinalPlan
  deriving DecidableEq

/-- System instruction of the research stage. -/
def research_system_prompt (destination : String) : String :=
  s!"You are a travel research specialist. Your job is to gather comprehensive information about {destination}.\nUse the research_destination tool to get information about {destination}.\nProvide detailed insights about weather, culture, attractions, and practical information for {destination}.\nFocus specifically on {destination} and provide accurate, destination-specific information."

/-- System instruction of the budget stage. -/
def budget_system_prompt : String :=
  "You are a budget planning specialist. Your job is to create a detailed budget breakdown for the trip.\nUse the calculate_budget_breakdown tool to allocate the budget across different categories.\nProvide recommendations for cost-saving opportunities."

/-- System instruction of the itinerary stage. -/
def itinerary_system_prompt : String :=
  "You are an itinerary planning specialist. Your job is to create a detailed day-by-day itinerary.\nUse the generate_itinerary tool to create a comprehensive schedule.\nConsider the interests, budget, and duration of the user to create an optimal plan."

/-- System instruction of the accommodation stage. -/
def accommodation_system_prompt : String :=
  "You are an accommodation specialist. Your job is to find suitable places to stay.\nUse the find_accommodations tool to get accommodation options within the budget.\nConsider location, amenities, and value for money."

/-- System instruction of the coordinator stage, parameterized by the trip
details drawn from state; the interest list is comma-joined with the fallback
phrase General travel when empty. -/
def coordinator_system_prompt (destination : String) (duration : Int) (budget : ℚ)
    (interests : List String) : String :=
  let interestsText := if interests.isEmpty then "General travel"
    else String.intercalate ", " interests
  let durationText := toString duration
  let budgetText := toString budget
  s!"You are the trip planning coordinator. Your job is to synthesize all the research and recommendations into a comprehensive, actionable trip plan for {destination}.\n\nTrip Details:\n- Destination: {destination}\n- Duration: {durationText} days\n- Budget: ${budgetText}\n- Interests: {interestsText}\n\nCreate a final summary that includes:\n1. Destination overview for {destination}\n2. Budget breakdown for ${budgetText}\n3. Detailed {durationText}-day itinerary for {destination}\n4. Accommodation recommendations in {destination}\n5. Practical tips and reminders for {destination}\n\nMake sure the plan is realistic, within budget, and matches the interests of the user. Focus specifically on {destination}."

/-- Stage `research_agent`: submit the system instruction plus the prior
history to the Completion Service; the returned single-message list passes
through the `add_messages` reducer, which appends it to the history. -/
def research_agent (llm : LLM) (state : PipelineState) : PipelineState :=
  let sysMsg : Message := { role := Role.system, content := research_system_prompt state.destination }
  let response := llm (sysMsg :: state.messages)
  { state with messages := state.messages ++ [response] }

/-- Stage `budget_agent`. -/
def budget_agent (llm : LLM) (state : PipelineState) : PipelineState :=
  let sysMsg : Message := { role := Role.system, content := budget_system_prompt }
  let response := llm (sysMsg :: state.messages)
  { state with messages := state.messages ++ [response] }

/-- Stage `itinerary_agent`. -/
def itinerary_agent (llm : LLM) (state : PipelineState) : PipelineState :=
  let sysMsg : Message := { role := Role.system, content := itinerary_system_prompt }
  let response := llm (sysMsg :: state.messages)
  { state with messages := state.messages ++ [response] }

/-- Stage `accommodation_agent`. -/
def accommodation_agent (llm : LLM) (state : PipelineState) : PipelineState :=
  let sysMsg : Message := { role := Role.system, content := accommodation_system_prompt }
  let response := llm (sysMsg :: state.messages)
  { state with messages := state.messages ++ [response] }

/-- Stage `coordinator_agent`: also stores the completion text as the final
plan summary. -/
def coordinator_agent (llm : LLM) (state : PipelineState) : PipelineState :=
  let promptText :=
    coordinator_system_prompt state.destination state.duration state.budget state.interests
  let sysMsg : Message := { role := Role.system, content := promptText }
  let response := llm (sysMsg :: state.messages)
  { state with
      messages := state.messages ++ [response],
      final_plan := some { summary := response.content } }

/-- `strContains hay needle` models the Python substring test
`needle in hay`. -/
def strContains (hay needle : String) : Bool :=
  (List.range (hay.data.length + 1)).any (fun i => needle.data.isPrefixOf (hay.data.drop i))

/-- The router `should_continue`: inspects the latest message for keyword
substrings (`messages[-1]` raises `IndexError` on an empty history, modelled
as `none`).  Defined in the source but never wired into the graph. -/
def should_continue (state : PipelineState) : Option String :=
  match state.messages.getLast? with
  | none => none
  | some last =>
    let t := pyLower last.content
    if strContains t "research" then some "research"
    else if strContains t "budget" then some "budget"
    else if strContains t "itinerary" then some "itinerary"
    else if strContains t "accommodation" then some "accommodation"
    else some "coordinator"

/-- Nodes of the compiled graph: the five agent nodes plus the `END`
marker. -/
inductive GNode
  | research
  | budget
  | itinerary
  | accommodation
  | coordinator
  | endNode
  deriving DecidableEq

/-- Entry point set by `create_trip_planner_graph`
(`set_entry_point("research_agent")`). -/
def entry_point : GNode := GNode.research

/-- The unconditional edges added by `create_trip_planner_graph` via
`add_edge`: a fixed linear chain ending at `END`. -/
def graph_next : GNode → GNode
  | GNode.research => GNode.budget
  | GNode.budget => GNode.itinerary
  | GNode.itinerary => GNode.accommodation
  | GNode.accommodation => GNode.coordinator
  | GNode.coordinator => GNode.endNode
  | GNode.endNode => GNode.endNode

/-- Which nodes carry a conditional router edge.  `create_trip_planner_graph`
never calls `add_conditional_edges`, so no node does. -/
def has_conditional_edge : GNode → Bool := fun _ => false

/-- The agent function attached to each node. -/
def node_fn (llm : LLM) : GNode → PipelineState → PipelineState
  | GNode.research => research_agent llm
  | GNode.budget => budget_agent llm
  | GNode.itinerary => itinerary_agent llm
  | GNode.accommodation => accommodation_agent llm
  | GNode.coordinator => coordinator_agent llm
  | GNode.endNode => fun s => s

/-- Interpretation of a router result as a target node, matching the strings
`should_continue` returns.  Unreachable in the compiled graph because no
conditional edge is registered. -/
def parse_route : Option String → GNode
  | some "research" => GNode.research
  | some "budget" => GNode.budget
  | some "itinerary" => GNode.itinerary
  | some "accommodation" => GNode.accommodation
  | some "coordinator" => GNode.coordinator
  | _ => GNode.endNode

/-- Executor of the compiled graph: starting from a node, run its agent
function, then follow the conditional router if one is registered at that
node and the fixed edge otherwise, until `END` (or fuel runs out).  Returns
the list of visited agent nodes in order together with the final state. -/
def run_nodes (llm : LLM) (router : PipelineState → Option String) :
    Nat → GNode → PipelineState → List GNode × PipelineState
  | 0, _, s => ([], s)
  | Nat.succ fuel, n, s =>
    if n = GNode.endNode then ([], s)
    else
      let s2 := node_fn llm n s
      let next := if has_conditional_edge n then parse_route (router s2) else graph_next n
      let r := run_nodes llm router fuel next s2
      (n :: r.1, r.2)

/-- The compiled trip-planner graph invoked from its entry point, with
`should_continue` supplied as the (never-registered) router; fuel 6 covers
the five stages plus the end marker. -/
def trip_graph_run (llm : LLM) (s : PipelineState) : List GNode × PipelineState :=
  run_nodes llm should_continue 6 entry_point s

/-- `graph.invoke`: the final state of the compiled graph's run. -/
def run_pipeline (llm : LLM) (s : PipelineState) : PipelineState :=
  (trip_graph_run llm s).2

/-- The completion the research stage submits and appends on state `s`. -/
def research_response (llm : LLM) (s : PipelineState) : Message :=
  llm ({ role := Role.system, content := research_system_prompt s.destination } :: s.messages)

/-- The completion the budget stage submits and appends on state `s`. -/
def budget_response (llm : LLM) (s : PipelineState) : Message :=
  llm ({ role := Role.system, content := budget_system_prompt } :: s.messages)

/-- The completion the itinerary stage submits and appends on state `s`. -/
def itinerary_response (llm : LLM) (s : PipelineState) : Message :=
  llm ({ role := Role.system, content := itinerary_system_prompt } :: s.messages)

/-- The completion the accommodation stage submits and appends on state `s`. -/
def accommodation_response (llm : LLM) (s : PipelineState) : Message :=
  llm ({ role := Role.system, content := accommodation_system_prompt } :: s.messages)

/-- The completion the coordinator stage submits and appends on state `s`. -/
def coordinator_response (llm : LLM) (s : PipelineState) : Message :=
  let promptText := coordinator_system_prompt s.destination s.duration s.budget s.interests
  llm ({ role := Role.system, content := promptText } :: s.messages)

/-- `TripRequest` (pydantic input model); defaults `accommodation_type = "hotel"`
and `transportation_type = "flight"` are applied by the caller. -/
structure TripRequest where
  destination : String
  duration : Int
  budget : ℚ
  interests : List String
  start_date : String
  end_date : String
  accommodation_type : String
  transportation_type : String
  deriving DecidableEq

/-- The initial state `plan_trip` passes to `graph.invoke`: empty message
history and the request fields.  (The extra `start_date`/`end_date`/
`accommodation_type`/`transportation_type` keys of the initial dict are not
part of the graph's state schema and are dropped; no stage reads them.) -/
def initial_state (req : TripRequest) : PipelineState :=
  { messages := []
    destination := req.destination
    duration := req.duration
    budget := req.budget
    interests := req.interests
    itinerary := none
    recommendations := none
    final_plan := none }

/-- The `final_plan` sub-record of `plan_trip`'s result.  Fields
`accommodation`, `transportation`, `budget_breakdown` and `tips` are read
with `final_state.get(key, default)` for keys that are not even part of the
state schema; dict defaults are modelled as empty association lists. -/
structure FinalPlanOut where
  summary : String
  destination : String
  duration : Int
  budget : ℚ
  interests : List String
  itinerary : List DayPlan
  accommodation : List (String × String)
  transportation : List (String × String)
  budget_breakdown : List (String × String)
  recommendations : List String
  tips : String
  deriving DecidableEq

/-- The result record `plan_trip` returns. -/
structure PlanTripResult where
  final_plan : FinalPlanOut
  messages : List String
  destination : String
  duration : Int
  budget : ℚ
  interests : List String
  workflow_id : String
  deriving DecidableEq

/-- `final_plan_data.get("summary", "Trip plan generated successfully")`:
the stored summary when the coordinator wrote one, the non-empty default
otherwise. -/
def extracted_summary (fp : Option FinalPlan) : String :=
  match fp with
  | some p => p.summary
  | none => "Trip plan generated successfully"

/-- The fixed five human-readable progress strings of the result. -/
def progress_messages (req : TripRequest) : List String :=
  let dst := req.destination
  let budgetText := toString req.budget
  let durationText := toString req.duration
  let accType := req.accommodation_type
  [s!"Research completed for {dst}",
   s!"Budget analysis completed for ${budgetText}",
   s!"Itinerary created for {durationText} days",
   s!"Accommodation recommendations for {accType}",
   "Trip plan coordination completed"]

/-- Extraction of the output payload from the final graph state, as in the
`result = ...` block of `plan_trip`. -/
def extract_result (final_state : PipelineState) (req : TripRequest)
    (workflow_id : String) : PlanTripResult :=
  { final_plan :=
      { summary := extracted_summary final_state.final_plan
        destination := final_state.destination
        duration := final_state.duration
        budget := final_state.budget
        interests := final_state.interests
        itinerary := final_state.itinerary.getD []
        accommodation := []
        transportation := []
        budget_breakdown := []
        recommendations := final_state.recommendations.getD []
        tips := "" }
    messages := progress_messages req
    destination := req.destination
    duration := req.duration
    budget := req.budget
    interests := req.interests
    workflow_id := workflow_id }

/-- `plan_trip`: build the initial state, invoke the compiled graph, extract
the payload.  The correlation identifier (`uuid.uuid4()`) comes from outside
the core logic and is passed as a parameter, as is the Completion Service. -/
def plan_trip (llm : LLM) (workflow_id : String) (req : TripRequest) : PlanTripResult :=
  extract_result (run_pipeline llm (initial_state req)) req workflow_id

/-- Exceptions `plan_trip` may raise: Python `ValueError` versus anything
else (completion-service failures included). -/
inductive PipelineExc
  | valueError (msg : String)
  | otherExc (msg : String)
  deriving DecidableEq

/-- Outcome of the `/plan-trip` endpoint handler: a success response, a
`success=false` response (caught `ValueError`), a raised `HTTPException`, or
an unhandled exception surfacing as a generic server error. -/
inductive PlanOutcome
  | ok (result : PlanTripResult)
  | errorResp (msg : String)
  | httpException (status : Nat) (detail : String)
  | unhandled (msg : String)
  deriving DecidableEq

/-- Python truthiness of an optional string: `None` and `""` are falsy. -/
def pythonFalsy (o : Option String) : Bool :=
  match o with
  | none => true
  | some s => s.isEmpty

/-- Endpoint `create_trip_plan` (`backend/main.py`): validate the API key
before anything else — a missing or empty key raises
`HTTPException(500, "OpenAI API key not configured")`, which the
`except ValueError` clause does not catch; otherwise run `plan_trip`,
mapping a `ValueError` to a `success=false` response and letting any other
exception propagate.  The pipeline is passed as a function parameter, so the
definition makes visible that the failure path never consults it. -/
def create_trip_plan (openai_api_key : Option String)
    (plan_trip_fn : TripRequest → Except PipelineExc PlanTripResult)
    (request : TripRequest) : PlanOutcome :=
  if pythonFalsy openai_api_key then
    PlanOutcome.httpException 500 "OpenAI API key not configured"
  else
    match plan_trip_fn request with
    | Except.ok result => PlanOutcome.ok result
    | Except.error (PipelineExc.valueError e) => PlanOutcome.errorResp e
    | Except.error (PipelineExc.otherExc e) => PlanOutcome.unhandled e

/-- C1: every stage function returns its input state unchanged except for one
message appended at the end of the history (the coordinator additionally sets
`final_plan`); consequently the full pipeline run equals the five-stage
composition, its history is the input history extended by the five stage
responses in the order research, budget, itinerary, accommodation,
coordinator, and on an empty initial history it has exactly 5 entries. -/
theorem trip_stage_contract (llm : LLM) (s : PipelineState) :
    ((∃ m, research_agent llm s = { s with messages := s.messages ++ [m] }) ∧
     (∃ m, budget_agent llm s = { s with messages := s.messages ++ [m] }) ∧
     (∃ m, itinerary_agent llm s = { s with messages := s.messages ++ [m] }) ∧
     (∃ m, accommodation_agent llm s = { s with messages := s.messages ++ [m] }) ∧
     (∃ m fp, coordinator_agent llm s =
       { s with
           messages := s.messages ++ [m],
           final_plan := some fp })) ∧
    run_pipeline llm s =
      coordinator_agent llm (accommodation_agent llm (itinerary_agent llm (budget_agent llm
        (research_agent llm s)))) ∧
    (run_pipeline llm s).messages = s.messages ++
      [research_response llm s,
       budget_response llm (research_agent llm s),
       itinerary_response llm (budget_agent llm (research_agent llm s)),
       accommodation_response llm (itinerary_agent llm (budget_agent llm
         (research_agent llm s))),
       coordinator_response llm (accommodation_agent llm (itinerary_agent llm (budget_agent llm
         (research_agent llm s))))] ∧
    (s.messages = [] → (run_pipeline llm s).messages.length = 5) := by
  have hrun : run_pipeline llm s =
      coordinator_agent llm (accommodation_agent llm (itinerary_agent llm (budget_agent llm
        (research_agent llm s)))) := rfl
  have hmsg : (run_pipeline llm s).messages = s.messages ++
      [research_response llm s,
       budget_response llm (research_agent llm s),
       itinerary_response llm (budget_agent llm (research_agent llm s)),
       accommodation_response llm (itinerary_agent llm (budget_agent llm
         (research_agent llm s))),
       coordinator_response llm (accommodation_agent llm (itinerary_agent llm (budget_agent llm
         (research_agent llm s))))] := by
    rw [hrun]
    simp [research_agent, budget_agent, itinerary_agent, accommodation_agent, coordinator_agent,
      research_response, budget_response, itinerary_response, accommodation_response,
      coordinator_response]
  refine ⟨⟨⟨_, rfl⟩, ⟨_, rfl⟩, ⟨_, rfl⟩, ⟨_, rfl⟩, ⟨_, _, rfl⟩⟩, hrun, hmsg, ?_⟩
  intro h
  rw [hmsg, h]
  rfl

/-- A concrete completion function: every call returns a fixed message. -/
def witness_llm : LLM := fun _ => { role := Role.ai, content := "stub completion" }

/-- A concrete valid pipeline state with empty message history. -/
def witness_state : PipelineState :=
  { messages := []
    destination := "Paris"
    duration := 3
    budget := 1500
    interests := ["art"]
    itinerary := none
    recommendations := none
    final_plan := none }

theorem trip_stage_contract_witness :
    witness_state.messages = [] ∧
    (run_pipeline witness_llm witness_state).messages.length = 5 :=
  ⟨rfl, (trip_stage_contract witness_llm witness_state).2.2.2 rfl⟩

/-- C2: the compiled pipeline visits exactly the nodes research, budget,
itinerary, accommodation, coordinator, in that order, each exactly once, for
every completion function and every state (so independently of any completion
text); and its run is literally identical under every router, so the keyword
router `should_continue` is never consulted by the execution. -/
theorem trip_pipeline_fixed_order (llm : LLM) (s : PipelineState) :
    (trip_graph_run llm s).1 =
      [GNode.research, GNode.budget, GNode.itinerary, GNode.accommodation,
       GNode.coordinator] ∧
    (∀ router : PipelineState → Option String,
      run_nodes llm router 6 entry_point s = trip_graph_run llm s) :=
  ⟨rfl, fun _ => rfl⟩

/-- C7: with no API credential configured (or an empty one), the endpoint
fails with the configuration `HTTPException` for every pipeline function and
request — the pipeline parameter is never consulted, so no stage runs and no
completion call is attempted — and that outcome is distinguishable from an
unhandled completion-service error. -/
theorem create_trip_plan_missing_key :
    (∀ (plan_trip_fn : TripRequest → Except PipelineExc PlanTripResult) (req : TripRequest),
      create_trip_plan none plan_trip_fn req =
        PlanOutcome.httpException 500 "OpenAI API key not configured") ∧
    (∀ (plan_trip_fn : TripRequest → Except PipelineExc PlanTripResult) (req : TripRequest),
      create_trip_plan (some "") plan_trip_fn req =
        PlanOutcome.httpException 500 "OpenAI API key not configured") ∧
    (∀ (st : Nat) (d e : String),
      PlanOutcome.httpException st d ≠ PlanOutcome.unhandled e) :=
  ⟨fun _ _ => rfl, fun _ _ => rfl, fun _ _ _ h => PlanOutcome.noConfusion h⟩

/-- The end-to-end scenario request of the specification. -/
def paris_request : TripRequest :=
  { destination := "Paris"
    duration := 3
    budget := 1500
    interests := ["art", "food"]
    start_date := "2025-06-01"
    end_date := "2025-06-04"
    accommodation_type := "hotel"
    transportation_type := "flight" }

/-- A Completion Service stub returning the fixed placeholder `p` for every
call. -/
def stub_llm (p : String) : LLM := fun _ => { role := Role.ai, content := p }

/-- C8: on the Paris request with the Completion Service stubbed to a fixed
placeholder, `plan_trip` succeeds, echoes destination, duration, budget and
interests, stores the placeholder as the (non-empty, when the placeholder is)
summary, returns the supplied correlation identifier, and produces the fixed
five progress strings. -/
theorem plan_trip_paris_stubbed (p wid : String) :
    (plan_trip (stub_llm p) wid paris_request).destination = "Paris" ∧
    (plan_trip (stub_llm p) wid paris_request).duration = 3 ∧
    (plan_trip (stub_llm p) wid paris_request).budget = 1500 ∧
    (plan_trip (stub_llm p) wid paris_request).interests = ["art", "food"] ∧
    (plan_trip (stub_llm p) wid paris_request).final_plan.destination = "Paris" ∧
    (plan_trip (stub_llm p) wid paris_request).final_plan.duration = 3 ∧
    (plan_trip (stub_llm p) wid paris_request).final_plan.summary = p ∧
    (p ≠ "" → (plan_trip (stub_llm p) wid paris_request).final_plan.summary ≠ "") ∧
    (plan_trip (stub_llm p) wid paris_request).workflow_id = wid ∧
    (plan_trip (stub_llm p) wid paris_request).messages =
      ["Research completed for Paris",
       "Budget analysis completed for $1500",
       "Itinerary created for 3 days",
       "Accommodation recommendations for hotel",
       "Trip plan coordination completed"] := by
  refine ⟨rfl, rfl, rfl, rfl, rfl, rfl, rfl, ?_, rfl, ?_⟩
  · intro h
    exact h
  · rfl

theorem plan_trip_paris_stubbed_witness :
    ("dummy response" : String) ≠ "" ∧
    (plan_trip (stub_llm "dummy response") "wf-1" paris_request).final_plan.summary ≠ "" :=
  ⟨by decide,
    (plan_trip_paris_stubbed "dummy response" "wf-1").2.2.2.2.2.2.2.1 (by decide)⟩

/-- C9: on every run of `plan_trip` the result's `final_plan` sub-fields
itinerary, accommodation, transportation, budget_breakdown, recommendations
and tips equal their hard-coded empty defaults, because no stage ever writes
those state fields; only the summary carries stage output, and the extraction
falls back to the non-empty default string whenever the final state carries no
`final_plan`. -/
theorem plan_trip_final_plan_defaults (llm : LLM) (wid : String) (req : TripRequest)
    (s : PipelineState) :
    ((plan_trip llm wid req).final_plan.itinerary = [] ∧
     (plan_trip llm wid req).final_plan.accommodation = [] ∧
     (plan_trip llm wid req).final_plan.transportation = [] ∧
     (plan_trip llm wid req).final_plan.budget_breakdown = [] ∧
     (plan_trip llm wid req).final_plan.recommendations = [] ∧
     (plan_trip llm wid req).final_plan.tips = "") ∧
    (extract_result { s with final_plan := none } req wid).final_plan.summary =
      "Trip plan generated successfully" ∧
    "Trip plan generated successfully" ≠ "" :=
  ⟨⟨rfl, rfl, rfl, rfl, rfl, rfl⟩, rfl, by decide⟩
